import Mathlib

/-!
Verification of the authentication/token subsystem of the workout-buddy
server: the JWT token codec (`app/core/security/jwt_handler.py`), the
token service (`app/features/auth/services/token_service.py`), user
identity reconciliation (`app/features/auth/services/oauth_service.py`,
`app/features/auth/transformers.py`,
`app/features/auth/repositories/user_repository.py`) and the
authentication dependency (`app/features/auth/dependencies.py`).

Modelling conventions:
- time is a `Nat` counting seconds (Python datetimes are second-granular
  in every comparison the subsystem makes);
- a JWT is modelled structurally: either a well-formed token signed with
  a given key and algorithm and carrying the typed payload, or a
  malformed string (anything that is not a well-formed JWT);
- user ids (UUIDs in the source) are modelled as `Nat`; `str(user_id)`
  is `toString` and `UUID(s)` is `parse_uuid` - a parser that fails on
  garbage and succeeds on rendered ids, which is the behaviour the
  try/except blocks in the source depend on;
- the Python string builtins `.lower()`, `.replace(" ", "")`,
  `.split("@")[0]` and the `UUID` parser are modelled by the list-based
  functions `py_lower`, `py_remove_spaces`, `py_before_at` and
  `parse_uuid` below, which agree with the builtins on the inputs the
  subsystem feeds them;
- the database session is a list of users; SQLAlchemy `first()` is
  `List.find?`; the unique constraints of the `users` table (email and
  username, `models/user.py`) are checked at insert time, which models
  the database backstop the repository relies on.
-/

deriving instance DecidableEq for Except

/-! ## Models of Python string builtins -/

/-- Python `s.lower()` (ASCII inputs). -/
def py_lower (s : String) : String :=
  String.mk (s.toList.map Char.toLower)

/-- Python `s.replace(" ", "")`: remove every space. -/
def py_remove_spaces (s : String) : String :=
  String.mk (s.toList.filter (fun c => !(c == ' ')))

/-- Python `s.split("@")[0]`: everything before the first `@`, the whole
string when no `@` occurs. -/
def py_before_at (s : String) : String :=
  String.mk (s.toList.takeWhile (fun c => !(c == '@')))

/-- Python `UUID(s)` on a rendered id: parse the decimal rendering back,
failing (raising `ValueError`, modelled as `none`) on anything that is
not a rendered id. -/
def parse_uuid (s : String) : Option Nat :=
  if !s.toList.isEmpty && s.toList.all Char.isDigit then
    some (s.toList.foldl (fun n c => n * 10 + (c.toNat - 48)) 0)
  else none

/-! ## Token payloads and tokens (jose JWTs, as used by jwt_handler.py) -/

/-- The JWT payload built by `create_access_token` / `create_refresh_token`:
`{"sub": str(user_id), "type": ..., "exp": ..., "iat": ...}`. -/
structure Payload where
  sub : String
  type : String
  exp : Nat
  iat : Nat
deriving DecidableEq

/-- A token string, modelled structurally: `signed` is a well-formed JWT
carrying `payload`, signed with `key` under algorithm `alg`; `malformed`
is any string that is not a well-formed JWT. -/
inductive Token where
  | signed (payload : Payload) (key : String) (alg : String)
  | malformed (raw : String)
deriving DecidableEq

/-- The error class raised by the jose library and caught by
`JWTHandler.decode_token`. -/
inductive JWTError where
  | malformedToken
  | invalidSignature
  | expiredSignature
deriving DecidableEq

/-- Model of `jose.jwt.decode(token, key, algorithms=algorithms)` at
instant `now`: raises (returns `.error`) on malformed input, on a
signature made with a different key or algorithm, and on expiry.

Modelled from the spec: the expiry comparison itself lives in the jose
library, which is not part of this repository; per the spec, expiry is
inclusive - the token is invalid exactly when `now >= exp`. -/
def joseDecode (token : Token) (key : String) (algorithms : List String)
    (now : Nat) : Except JWTError Payload :=
  match token with
  | .malformed _ => .error .malformedToken
  | .signed p k a =>
    if k = key ∧ a ∈ algorithms then
      if p.exp ≤ now then .error .expiredSignature
      else .ok p
    else .error .invalidSignature

/-! ## JWTHandler (app/core/security/jwt_handler.py) -/

/-- The fields `JWTHandler.__init__` copies out of `security_settings`. -/
structure JWTHandler where
  secret_key : String
  algorithm : String
  access_token_expire_minutes : Nat
  refresh_token_expire_days : Nat

/-- The singleton `jwt_handler`, configured from `SecuritySettings`
defaults (`ALGORITHM = "HS256"`, 15 minutes, 7 days) and the secret key
provided by the environment. -/
def jwt_handler (secret : String) : JWTHandler :=
  { secret_key := secret
    algorithm := "HS256"
    access_token_expire_minutes := 15
    refresh_token_expire_days := 7 }

/-- `JWTHandler.create_access_token`: payload
`{sub: str(user_id), type: "access", exp: now + minutes, iat: now}`,
encoded with the configured secret and algorithm. -/
def JWTHandler.create_access_token (h : JWTHandler) (user_id : Nat)
    (now : Nat) : Token :=
  Token.signed
    { sub := toString user_id
      type := "access"
      exp := now + h.access_token_expire_minutes * 60
      iat := now }
    h.secret_key h.algorithm

/-- `JWTHandler.create_refresh_token`: as above with `type: "refresh"`
and a lifetime in days. -/
def JWTHandler.create_refresh_token (h : JWTHandler) (user_id : Nat)
    (now : Nat) : Token :=
  Token.signed
    { sub := toString user_id
      type := "refresh"
      exp := now + h.refresh_token_expire_days * 86400
      iat := now }
    h.secret_key h.algorithm

/-- `JWTHandler.decode_token`: calls `jwt.decode` inside a
`try ... except JWTError: return None`. -/
def JWTHandler.decode_token (h : JWTHandler) (token : Token) (now : Nat) :
    Option Payload :=
  match joseDecode token h.secret_key [h.algorithm] now with
  | .ok p => some p
  | .error _ => none

/-- `JWTHandler.validate_token_type`: decode, then compare the `type`
claim with the expected type; `False` when decoding fails. -/
def JWTHandler.validate_token_type (h : JWTHandler) (token : Token)
    (expected_type : String) (now : Nat) : Bool :=
  match h.decode_token token now with
  | none => false
  | some payload => payload.type == expected_type

/-! ## Users and the persistence layer
(app/features/auth/models/user.py, repositories/user_repository.py) -/

/-- `AuthProvider` enum from `models/user.py`. -/
inductive AuthProvider where
  | email
  | google
  | github
  | discord
deriving DecidableEq

/-- The `users` table row (`models/user.py`), restricted to the columns
the authentication subsystem reads or writes. -/
structure User where
  id : Nat
  email : String
  username : String
  full_name : Option String
  avatar_url : Option String
  auth_provider : AuthProvider
  oauth_id : Option String
  hashed_password : Option String
  is_active : Bool
deriving DecidableEq

/-- A database session: the current contents of the `users` table. -/
abbrev DB := List User

/-- `UserRepository.get_by_email`: `select(User).where(User.email == email)`,
then `first()`. -/
def get_by_email (db : DB) (email : String) : Option User :=
  db.find? (fun u => u.email == email)

/-- `UserRepository.get_by_oauth_id`: filter on both `auth_provider` and
`oauth_id`, then `first()`. -/
def get_by_oauth_id (db : DB) (provider : AuthProvider) (oauth_id : String) :
    Option User :=
  db.find? (fun u => decide (u.auth_provider = provider) &&
    u.oauth_id == some oauth_id)

/-- `UserRepository.username_exists`: a limited select on `username`,
true when some row matches. -/
def username_exists (db : DB) (username : String) : Bool :=
  db.any (fun u => u.username == username)

/-- `BaseRepository.get_by_id`: select on the primary key, `first()`. -/
def get_by_id (db : DB) (record_id : Nat) : Option User :=
  db.find? (fun u => u.id == record_id)

/-- The duplicate-key (IntegrityError) failure the database raises when
an insert violates a unique constraint. -/
inductive DBError where
  | duplicate_key
deriving DecidableEq

/-- `UserRepository.create_oauth_user`: builds the row with
`hashed_password = None` and `is_active = True` and inserts it via
`BaseRepository.create` (add + flush). The flush hits the unique
constraints on `email` and `username` declared in `models/user.py`: a
conflicting row makes the insert raise a duplicate-key error, which
neither the repository nor its callers catch. `new_id` is the fresh
primary key the UUID default generates. -/
def create_oauth_user (db : DB) (new_id : Nat) (email : String)
    (username : String) (full_name : Option String)
    (avatar_url : Option String) (auth_provider : AuthProvider)
    (oauth_id : String) : Except DBError (User × DB) :=
  if db.any (fun u => u.email == email || u.username == username) then
    .error .duplicate_key
  else
    let user : User :=
      { id := new_id
        email := email
        username := username
        full_name := full_name
        avatar_url := avatar_url
        auth_provider := auth_provider
        oauth_id := some oauth_id
        hashed_password := none
        is_active := true }
    .ok (user, db ++ [user])

/-! ## Username generation (app/features/auth/transformers.py)

`generate_unique_username` consults the repository only through
`username_exists`, so it is modelled against an arbitrary collision
predicate `ex`; the reconciliation code instantiates `ex` with
`username_exists db`. The `secrets.token_hex(4)` suffix (8 hex
characters) is nondeterministic, so it is passed in as `random_suffix`. -/

/-- The cleaning step: keep alphanumeric characters and underscores,
then truncate to 50. -/
def clean_username (base_username : String) : String :=
  (String.mk (base_username.toList.filter
    (fun c => c.isAlphanum || c == '_'))).take 50

/-- The fallback taken after the bounded retry loop is exhausted:
`f"{clean_base[:42]}_{random_suffix}"`. -/
def username_fallback (clean_base : String) (random_suffix : String) :
    String :=
  clean_base.take 42 ++ "_" ++ random_suffix

/-- The `while True` loop of `generate_unique_username`: try
`f"{clean_base}{counter}"[:50]` for `counter = 1, 2, ...`; the loop
gives up and takes the random fallback once the counter passes 9999, so
`fuel` counts the numbered attempts still allowed (9999 at entry). -/
def username_attempts (ex : String → Bool) (clean_base : String)
    (random_suffix : String) : Nat → Nat → String
  | _, 0 => username_fallback clean_base random_suffix
  | counter, fuel + 1 =>
    let candidate := (clean_base ++ toString counter).take 50
    if ex candidate then
      username_attempts ex clean_base random_suffix (counter + 1) fuel
    else candidate

/-- `generate_unique_username`: clean the base, return it when free,
otherwise run the numbered loop (counters 1 through 9999) and finally
the random fallback. -/
def generate_unique_username (ex : String → Bool) (base_username : String)
    (random_suffix : String) : String :=
  let clean_base := clean_username base_username
  if ex clean_base then
    username_attempts ex clean_base random_suffix 1 9999
  else clean_base

/-! ## OAuth reconciliation (app/features/auth/services/oauth_service.py) -/

/-- `OAuthUserInfo` (app/core/oauth/oauth_dto.py): the standardized
identity a provider adapter produces. -/
structure OAuthUserInfo where
  oauth_id : String
  email : String
  full_name : Option String
  avatar_url : Option String
  provider : String
deriving DecidableEq

/-- `OAuthService._get_auth_provider_enum`: `provider_map.get(name.lower(),
AuthProvider.EMAIL)`. -/
def get_auth_provider_enum (provider_name : String) : AuthProvider :=
  if py_lower provider_name == "google" then .google
  else if py_lower provider_name == "github" then .github
  else if py_lower provider_name == "discord" then .discord
  else .email

/-- The base username `_find_or_create_user` derives before calling
`generate_unique_username`: the full name without spaces, lowercased,
when the full name is truthy (not `None`, not empty), else the part of
the email before the `@`. -/
def base_username_of (user_info : OAuthUserInfo) : String :=
  match user_info.full_name with
  | some fn =>
    if fn.toList.isEmpty then py_before_at user_info.email
    else py_lower (py_remove_spaces fn)
  | none => py_before_at user_info.email

/-- The outcome of `_find_or_create_user`: the returned user, the
resulting table contents, and whether `create_oauth_user` was called. -/
structure FindOrCreateResult where
  user : User
  db : DB
  created : Bool
deriving DecidableEq

/-- `OAuthService._find_or_create_user`: look up by (provider, oauth id);
else look up by email; else generate a unique username and create the
user. The reads run against `db`, the session state at lookup time; the
insert runs against `create_db`, the table contents the flush actually
meets. Sequential execution has `create_db = db`; a concurrent request
committing a user between the lookup and the insert is modelled by a
`create_db` that extends `db`. A duplicate-key error from the insert
passes through: the source has no try/except around `create_oauth_user`. -/
def find_or_create_user (db : DB) (create_db : DB) (new_id : Nat)
    (random_suffix : String) (user_info : OAuthUserInfo) :
    Except DBError FindOrCreateResult :=
  let auth_provider := get_auth_provider_enum user_info.provider
  match get_by_oauth_id db auth_provider user_info.oauth_id with
  | some user => .ok ⟨user, db, false⟩
  | none =>
    match get_by_email db user_info.email with
    | some existing_user => .ok ⟨existing_user, db, false⟩
    | none =>
      let username := generate_unique_username (username_exists db)
        (base_username_of user_info) random_suffix
      match create_oauth_user create_db new_id user_info.email username
          user_info.full_name user_info.avatar_url auth_provider
          user_info.oauth_id with
      | .error e => .error e
      | .ok (user, db2) => .ok ⟨user, db2, true⟩

/-! ## Token service (app/features/auth/services/token_service.py) -/

/-- `TokenService.validate_refresh_token`: decode; `None` when decoding
fails; `None` when the token is not of type `"refresh"`; otherwise parse
the `sub` claim as a UUID, with `None` on a parse failure. -/
def validate_refresh_token (h : JWTHandler) (refresh_token : Token)
    (now : Nat) : Option Nat :=
  match h.decode_token refresh_token now with
  | none => none
  | some payload =>
    if h.validate_token_type refresh_token "refresh" now then
      parse_uuid payload.sub
    else none

/-! ## Authentication dependency (app/features/auth/dependencies.py) -/

/-- The typed failures `get_current_user` raises as `HTTPException`s:
401 for the first four, 404 for a missing user, 403 for an inactive
one. -/
inductive AuthError where
  | not_authenticated
  | invalid_token
  | invalid_token_type
  | invalid_token_payload
  | user_not_found
  | inactive_user
deriving DecidableEq

/-- `get_current_user`: reject a missing credential, an undecodable
token, a token whose type is not `"access"`, an unparsable `sub` claim,
an unknown user id, and an inactive user, in that order; otherwise
return the user. -/
def get_current_user (h : JWTHandler) (credentials : Option Token)
    (db : DB) (now : Nat) : Except AuthError User :=
  match credentials with
  | none => .error .not_authenticated
  | some token =>
    match h.decode_token token now with
    | none => .error .invalid_token
    | some payload =>
      if !(h.validate_token_type token "access" now) then
        .error .invalid_token_type
      else
        match parse_uuid payload.sub with
        | none => .error .invalid_token_payload
        | some user_id =>
          match get_by_id db user_id with
          | none => .error .user_not_found
          | some user =>
            if !user.is_active then .error .inactive_user
            else .ok user

/-- Decoding a token that is signed with the handler secret and
algorithm reduces to the expiry check. -/
theorem decode_token_signed (h : JWTHandler) (p : Payload) (now : Nat) :
    h.decode_token (Token.signed p h.secret_key h.algorithm) now =
      if p.exp ≤ now then none else some p := by
  by_cases he : p.exp ≤ now <;>
    simp [JWTHandler.decode_token, joseDecode, he]

/-- Decoding a token signed with a different key or algorithm yields
`none`. -/
theorem decode_token_wrong_key (h : JWTHandler) (p : Payload)
    (k a : String) (now : Nat) (hk : ¬ (k = h.secret_key ∧ a = h.algorithm)) :
    h.decode_token (Token.signed p k a) now = none := by
  unfold JWTHandler.decode_token joseDecode
  dsimp only
  rw [if_neg (by simpa using hk)]

/-- Claim C1: for every subject, kind (access or refresh) and positive
configured ttl, decoding a freshly issued token returns claims whose
subject and kind equal the inputs, and validate_token_type is true for
the issued kind and false for the other kind. -/
theorem token_codec_roundtrip (h : JWTHandler) (uid now : Nat)
    (hacc : 0 < h.access_token_expire_minutes)
    (href : 0 < h.refresh_token_expire_days) :
    h.decode_token (h.create_access_token uid now) now =
      some { sub := toString uid, type := "access",
             exp := now + h.access_token_expire_minutes * 60, iat := now } ∧
    h.decode_token (h.create_refresh_token uid now) now =
      some { sub := toString uid, type := "refresh",
             exp := now + h.refresh_token_expire_days * 86400, iat := now } ∧
    h.validate_token_type (h.create_access_token uid now) "access" now
      = true ∧
    h.validate_token_type (h.create_access_token uid now) "refresh" now
      = false ∧
    h.validate_token_type (h.create_refresh_token uid now) "refresh" now
      = true ∧
    h.validate_token_type (h.create_refresh_token uid now) "access" now
      = false := by
  have ha : ¬ (now + h.access_token_expire_minutes * 60 ≤ now) := by omega
  have hr : ¬ (now + h.refresh_token_expire_days * 86400 ≤ now) := by omega
  have hda : h.decode_token (h.create_access_token uid now) now =
      some { sub := toString uid, type := "access",
             exp := now + h.access_token_expire_minutes * 60, iat := now } := by
    unfold JWTHandler.create_access_token
    rw [decode_token_signed]
    exact if_neg ha
  have hdr : h.decode_token (h.create_refresh_token uid now) now =
      some { sub := toString uid, type := "refresh",
             exp := now + h.refresh_token_expire_days * 86400, iat := now } := by
    unfold JWTHandler.create_refresh_token
    rw [decode_token_signed]
    exact if_neg hr
  refine ⟨hda, hdr, ?_, ?_, ?_, ?_⟩ <;>
    simp [JWTHandler.validate_token_type, hda, hdr]

/-- Witness for C1 at the default configuration, subject 7, instant
100. -/
theorem token_codec_roundtrip_witness :
    (jwt_handler "k").validate_token_type
      ((jwt_handler "k").create_access_token 7 100) "access" 100 = true ∧
    (jwt_handler "k").validate_token_type
      ((jwt_handler "k").create_access_token 7 100) "refresh" 100 = false ∧
    (jwt_handler "k").validate_token_type
      ((jwt_handler "k").create_refresh_token 7 100) "refresh" 100 = true :=
  ⟨(token_codec_roundtrip (jwt_handler "k") 7 100 (by decide)
      (by decide)).2.2.1,
   (token_codec_roundtrip (jwt_handler "k") 7 100 (by decide)
      (by decide)).2.2.2.1,
   (token_codec_roundtrip (jwt_handler "k") 7 100 (by decide)
      (by decide)).2.2.2.2.1⟩

/-- Claim C2: decode_token is a total function into an option - it can
never raise, because every JWTError the library raises is caught - and
it returns the typed invalid result `none` exactly on the three failure
classes: malformed structure, a signature made with a different key or
algorithm, and expiry. -/
theorem decode_token_never_raises (h : JWTHandler) (token : Token)
    (now : Nat) :
    h.decode_token token now = none ↔
      (∃ raw, token = Token.malformed raw) ∨
      (∃ p k a, token = Token.signed p k a ∧
        ¬ (k = h.secret_key ∧ a = h.algorithm)) ∨
      (∃ p, token = Token.signed p h.secret_key h.algorithm ∧
        p.exp ≤ now) := by
  cases token with
  | malformed raw =>
    simp [JWTHandler.decode_token, joseDecode]
  | signed p k a =>
    by_cases hk : k = h.secret_key ∧ a = h.algorithm
    · obtain ⟨hk1, hk2⟩ := hk
      subst hk1
      subst hk2
      rw [decode_token_signed]
      by_cases he : p.exp ≤ now
      · simp only [if_pos he, true_iff]
        exact Or.inr (Or.inr ⟨p, rfl, he⟩)
      · simp only [if_neg he]
        constructor
        · intro hcontra
          exact absurd hcontra (by simp)
        · rintro (⟨raw, hraw⟩ | ⟨q, k2, a2, heq, hne⟩ | ⟨q, heq, hexp⟩)
          · exact absurd hraw (by simp)
          · cases heq
            exact absurd ⟨rfl, rfl⟩ hne
          · cases heq
            exact absurd hexp he
    · rw [decode_token_wrong_key h p k a now hk]
      simp only [true_iff]
      exact Or.inr (Or.inl ⟨p, k, a, rfl, hk⟩)

/-- Claim C3: expiry is inclusive - decoding an issued token at any
instant at or after its expiry instant returns `none`, and decoding one
second before the expiry instant returns the valid claims (for both the
access and the refresh creator). -/
theorem token_expiry_boundary (h : JWTHandler) (uid t0 now : Nat)
    (hacc : 0 < h.access_token_expire_minutes)
    (href : 0 < h.refresh_token_expire_days) :
    (t0 + h.access_token_expire_minutes * 60 ≤ now →
      h.decode_token (h.create_access_token uid t0) now = none) ∧
    (∃ p, h.decode_token (h.create_access_token uid t0)
        (t0 + h.access_token_expire_minutes * 60 - 1) = some p ∧
      p.sub = toString uid ∧ p.type = "access") ∧
    (t0 + h.refresh_token_expire_days * 86400 ≤ now →
      h.decode_token (h.create_refresh_token uid t0) now = none) ∧
    (∃ p, h.decode_token (h.create_refresh_token uid t0)
        (t0 + h.refresh_token_expire_days * 86400 - 1) = some p ∧
      p.sub = toString uid ∧ p.type = "refresh") := by
  refine ⟨?_, ?_, ?_, ?_⟩
  · intro hexp
    unfold JWTHandler.create_access_token
    rw [decode_token_signed]
    exact if_pos hexp
  · refine ⟨Payload.mk (toString uid) "access"
      (t0 + h.access_token_expire_minutes * 60) t0, ?_, rfl, rfl⟩
    unfold JWTHandler.create_access_token
    rw [decode_token_signed]
    refine if_neg ?_
    dsimp only
    omega
  · intro hexp
    unfold JWTHandler.create_refresh_token
    rw [decode_token_signed]
    exact if_pos hexp
  · refine ⟨Payload.mk (toString uid) "refresh"
      (t0 + h.refresh_token_expire_days * 86400) t0, ?_, rfl, rfl⟩
    unfold JWTHandler.create_refresh_token
    rw [decode_token_signed]
    refine if_neg ?_
    dsimp only
    omega

/-- Witness for C3 at the default configuration: the access token
issued at 0 expires at 900; decoding at 900 is invalid, decoding at 899
returns the claims. -/
theorem token_expiry_boundary_witness :
    (0:Nat) + (jwt_handler "k").access_token_expire_minutes * 60 ≤ 900 ∧
    (jwt_handler "k").decode_token
      ((jwt_handler "k").create_access_token 7 0) 900 = none ∧
    (∃ p, (jwt_handler "k").decode_token
        ((jwt_handler "k").create_access_token 7 0)
        ((0:Nat) + (jwt_handler "k").access_token_expire_minutes * 60 - 1)
        = some p ∧ p.sub = toString 7 ∧ p.type = "access") :=
  ⟨by decide,
   (token_expiry_boundary (jwt_handler "k") 7 0 900 (by decide)
      (by decide)).1 (by decide),
   (token_expiry_boundary (jwt_handler "k") 7 0 900 (by decide)
      (by decide)).2.1⟩

/-- Claim C4: when (provider, external id) already maps to a user,
reconciliation returns that exact user, leaves the table unchanged, and
performs no create call. -/
theorem reconcile_existing_oauth_identity (db : DB) (new_id : Nat)
    (random_suffix : String) (info : OAuthUserInfo) (u : User)
    (hfound : get_by_oauth_id db (get_auth_provider_enum info.provider)
      info.oauth_id = some u) :
    find_or_create_user db db new_id random_suffix info =
      .ok ⟨u, db, false⟩ := by
  simp only [find_or_create_user, hfound]

/-- Witness for C4: a google identity matching the stored google user
is returned unchanged with no create. -/
theorem reconcile_existing_oauth_identity_witness :
    find_or_create_user
      [User.mk 1 "alice@example.com" "alice" none none AuthProvider.google
        (some "g-1") none true]
      [User.mk 1 "alice@example.com" "alice" none none AuthProvider.google
        (some "g-1") none true]
      2 "aabbccdd"
      (OAuthUserInfo.mk "g-1" "alice@example.com" none none "google") =
      .ok ⟨User.mk 1 "alice@example.com" "alice" none none
        AuthProvider.google (some "g-1") none true,
        [User.mk 1 "alice@example.com" "alice" none none AuthProvider.google
          (some "g-1") none true], false⟩ :=
  reconcile_existing_oauth_identity _ 2 "aabbccdd"
    (OAuthUserInfo.mk "g-1" "alice@example.com" none none "google")
    _ (by decide)

/-- Claim C5: when (provider, external id) matches no user but the
email matches an existing user under a different provider,
reconciliation returns that existing user as-is and creates no user. -/
theorem reconcile_email_linking (db : DB) (new_id : Nat)
    (random_suffix : String) (info : OAuthUserInfo) (u : User)
    (hnone : get_by_oauth_id db (get_auth_provider_enum info.provider)
      info.oauth_id = none)
    (hemail : get_by_email db info.email = some u)
    (hdiff : u.auth_provider ≠ get_auth_provider_enum info.provider) :
    find_or_create_user db db new_id random_suffix info =
      .ok ⟨u, db, false⟩ := by
  simp only [find_or_create_user, hnone, hemail]

/-- Witness for C5: a github identity with the email of the stored
google user links to that user with no create. -/
theorem reconcile_email_linking_witness :
    find_or_create_user
      [User.mk 1 "alice@example.com" "alice" none none AuthProvider.google
        (some "g-1") none true]
      [User.mk 1 "alice@example.com" "alice" none none AuthProvider.google
        (some "g-1") none true]
      2 "aabbccdd"
      (OAuthUserInfo.mk "gh-9" "alice@example.com" none none "github") =
      .ok ⟨User.mk 1 "alice@example.com" "alice" none none
        AuthProvider.google (some "g-1") none true,
        [User.mk 1 "alice@example.com" "alice" none none AuthProvider.google
          (some "g-1") none true], false⟩ :=
  reconcile_email_linking _ 2 "aabbccdd"
    (OAuthUserInfo.mk "gh-9" "alice@example.com" none none "github")
    _ (by decide) (by decide) (by decide)

/-- One unfolding of the numbered retry loop. -/
theorem username_attempts_succ (ex : String → Bool) (cb rs : String)
    (counter fuel : Nat) :
    username_attempts ex cb rs counter (fuel + 1) =
      if ex ((cb ++ toString counter).take 50) then
        username_attempts ex cb rs (counter + 1) fuel
      else (cb ++ toString counter).take 50 := rfl

/-- Under an always-colliding predicate the numbered loop ends in the
random fallback, whatever the counter and remaining fuel. -/
theorem username_attempts_const_true (ex : String → Bool)
    (cb rs : String) (counter fuel : Nat) (hex : ∀ s, ex s = true) :
    username_attempts ex cb rs counter fuel = username_fallback cb rs := by
  induction fuel generalizing counter with
  | zero => rfl
  | succ n ih =>
    rw [username_attempts_succ, hex, if_pos rfl]
    exact ih (counter + 1)

/-- Claim C6: generate_unique_username returns the sanitized base when
it is unused; returns base followed by "1" when the base exists but that
candidate does not; and under total collision it terminates with the
random-suffixed fallback after the 9999 numbered attempts. -/
theorem generate_unique_username_sequence (ex : String → Bool)
    (base_username random_suffix : String) :
    (ex (clean_username base_username) = false →
      generate_unique_username ex base_username random_suffix =
        clean_username base_username) ∧
    (ex (clean_username base_username) = true →
      ex ((clean_username base_username ++ "1").take 50) = false →
      generate_unique_username ex base_username random_suffix =
        (clean_username base_username ++ "1").take 50) ∧
    ((∀ s, ex s = true) →
      generate_unique_username ex base_username random_suffix =
        username_fallback (clean_username base_username) random_suffix) := by
  refine ⟨?_, ?_, ?_⟩
  · intro h0
    unfold generate_unique_username
    simp [h0]
  · intro h0 h1
    unfold generate_unique_username
    simp only [h0, if_true]
    rw [show (9999:Nat) = 9998 + 1 from rfl]
    rw [username_attempts_succ]
    rw [show (toString (1:Nat) : String) = "1" from rfl]
    simp [h1]
  · intro hall
    unfold generate_unique_username
    simp only [hall, if_true]
    exact username_attempts_const_true ex _ random_suffix 1 9999 hall

set_option maxRecDepth 10000 in
/-- Witness for C6 on the base "john": free predicate gives "john",
a predicate occupying only "john" gives "john1", and an always-true
predicate gives the random-suffixed fallback. -/
theorem generate_unique_username_sequence_witness :
    generate_unique_username (fun _ => false) "john" "aabbccdd" = "john" ∧
    generate_unique_username (fun s => s == "john") "john" "aabbccdd"
      = "john1" ∧
    generate_unique_username (fun _ => true) "john" "aabbccdd"
      = "john_aabbccdd" := by
  refine ⟨?_, ?_, ?_⟩
  · exact ((generate_unique_username_sequence (fun _ => false) "john"
      "aabbccdd").1 rfl).trans (by decide)
  · exact ((generate_unique_username_sequence (fun s => s == "john") "john"
      "aabbccdd").2.1 (by decide) (by decide)).trans (by decide)
  · exact ((generate_unique_username_sequence (fun _ => true) "john"
      "aabbccdd").2.2 (fun s => rfl)).trans (by decide)

set_option maxRecDepth 10000 in
/-- Claim C7, counterexample evaluation: on a 50-character base with an
always-colliding predicate the random-suffix fallback branch returns a
handle of length 51 = 42 + 1 + 8, exceeding the 50-character limit the
claim states (and the String(50) username column of the users table). -/
theorem generate_unique_username_length_violation :
    (generate_unique_username (fun _ => true)
      "aaaaaaaaaaaaaaaaaaaaaaaaaaaaaaaaaaaaaaaaaaaaaaaaaa" "aabbccdd").length = 51 := by
  have h : generate_unique_username (fun _ => true)
      "aaaaaaaaaaaaaaaaaaaaaaaaaaaaaaaaaaaaaaaaaaaaaaaaaa" "aabbccdd" =
      username_fallback (clean_username
        "aaaaaaaaaaaaaaaaaaaaaaaaaaaaaaaaaaaaaaaaaaaaaaaaaa") "aabbccdd" := by
    unfold generate_unique_username
    rw [if_pos rfl]
    exact username_attempts_const_true _ _ _ 1 9999 (fun s => rfl)
  rw [h]
  decide

set_option maxRecDepth 10000 in
/-- Claim C8, failing-input evaluation: the lookups run against a
session that does not yet see the concurrently created user, the insert
then hits the unique email constraint, and the duplicate-key error is
propagated to the caller - no code in the path catches it and retries
the lookup. -/
theorem duplicate_key_error_propagated :
    find_or_create_user []
      [User.mk 1 "alice@example.com" "winner" none none AuthProvider.google
        (some "g-1") none true]
      2 "aabbccdd"
      (OAuthUserInfo.mk "g-2" "alice@example.com" none none "google")
      = .error .duplicate_key := by decide

/-- Claim C9: validate_refresh_token returns a subject only when the
token decodes validly, its kind claim is "refresh" and the subject
parses, and it returns the typed failure `none` for every undecodable
token and every token of kind "access"; a fresh refresh token validates
back to its subject. -/
theorem validate_refresh_token_kind_check (h : JWTHandler) (token : Token)
    (now uid t0 : Nat) :
    (∀ u, validate_refresh_token h token now = some u →
      ∃ p, h.decode_token token now = some p ∧ p.type = "refresh" ∧
        parse_uuid p.sub = some u) ∧
    (h.decode_token token now = none →
      validate_refresh_token h token now = none) ∧
    (∀ p, h.decode_token token now = some p → p.type = "access" →
      validate_refresh_token h token now = none) ∧
    (0 < h.refresh_token_expire_days →
      parse_uuid (toString uid) = some uid →
      validate_refresh_token h (h.create_refresh_token uid t0) t0
        = some uid) := by
  refine ⟨?_, ?_, ?_, ?_⟩
  · intro u hu
    unfold validate_refresh_token at hu
    cases hd : h.decode_token token now with
    | none => rw [hd] at hu; exact absurd hu (by simp)
    | some p =>
      rw [hd] at hu
      dsimp only at hu
      by_cases ht : h.validate_token_type token "refresh" now
      · rw [if_pos ht] at hu
        refine ⟨p, rfl, ?_, hu⟩
        unfold JWTHandler.validate_token_type at ht
        rw [hd] at ht
        simpa using ht
      · rw [if_neg ht] at hu
        exact absurd hu (by simp)
  · intro hd
    unfold validate_refresh_token
    rw [hd]
  · intro p hd htype
    unfold validate_refresh_token
    rw [hd]
    have ht : h.validate_token_type token "refresh" now = false := by
      unfold JWTHandler.validate_token_type
      rw [hd]
      simp [htype]
    rw [ht]
    simp
  · intro hdays hparse
    have hdr : h.decode_token (h.create_refresh_token uid t0) t0 =
        some (Payload.mk (toString uid) "refresh"
          (t0 + h.refresh_token_expire_days * 86400) t0) := by
      unfold JWTHandler.create_refresh_token
      rw [decode_token_signed]
      refine if_neg ?_
      dsimp only
      omega
    have ht : h.validate_token_type (h.create_refresh_token uid t0)
        "refresh" t0 = true := by
      unfold JWTHandler.validate_token_type
      rw [hdr]
      rfl
    unfold validate_refresh_token
    rw [hdr]
    dsimp only
    rw [if_pos ht]
    exact hparse

/-- Witness for C9 at the default configuration: an access token is
rejected and a fresh refresh token for subject 7 validates to 7. -/
theorem validate_refresh_token_kind_check_witness :
    validate_refresh_token (jwt_handler "k")
      ((jwt_handler "k").create_access_token 7 0) 0 = none ∧
    validate_refresh_token (jwt_handler "k")
      ((jwt_handler "k").create_refresh_token 7 0) 0 = some 7 :=
  ⟨(validate_refresh_token_kind_check (jwt_handler "k")
      ((jwt_handler "k").create_access_token 7 0) 0 7 0).2.2.1
      (Payload.mk "7" "access" 900 0) (by decide) (by decide),
   (validate_refresh_token_kind_check (jwt_handler "k")
      ((jwt_handler "k").create_refresh_token 7 0) 0 7 0).2.2.2
      (by decide) (by decide)⟩

/-- Claim C10: even when the presented access token is valid and names
an existing user, get_current_user rejects the request with the typed
inactive-user failure whenever the active flag of that user is false. -/
theorem get_current_user_rejects_inactive (h : JWTHandler) (token : Token)
    (db : DB) (now : Nat) (p : Payload) (uid : Nat) (user : User)
    (hdec : h.decode_token token now = some p)
    (htype : p.type = "access")
    (hsub : parse_uuid p.sub = some uid)
    (huser : get_by_id db uid = some user)
    (hinactive : user.is_active = false) :
    get_current_user h (some token) db now = .error .inactive_user := by
  have hvt : h.validate_token_type token "access" now = true := by
    unfold JWTHandler.validate_token_type
    rw [hdec]
    simp [htype]
  unfold get_current_user
  simp only [hdec, hvt, hsub, huser, hinactive, Bool.not_true,
    Bool.not_false, Bool.false_eq_true, if_false, if_true]

/-- Witness for C10: a valid access token for the stored inactive user
1 is rejected as inactive. -/
theorem get_current_user_rejects_inactive_witness :
    get_current_user (jwt_handler "k")
      (some ((jwt_handler "k").create_access_token 1 0))
      [User.mk 1 "alice@example.com" "alice" none none AuthProvider.google
        (some "g-1") none false]
      0 = .error .inactive_user :=
  get_current_user_rejects_inactive (jwt_handler "k")
    ((jwt_handler "k").create_access_token 1 0)
    [User.mk 1 "alice@example.com" "alice" none none AuthProvider.google
      (some "g-1") none false]
    0 (Payload.mk "1" "access" 900 0) 1
    (User.mk 1 "alice@example.com" "alice" none none AuthProvider.google
      (some "g-1") none false)
    (by decide) (by decide) (by decide) (by decide) (by decide)
